import Mathlib

/-!
Shallow embedding of a minimal JSON-RPC 2.0 stdio server (`src/main.rs`).

The server reads newline-delimited JSON from stdin.  Each line is first
deserialized as a `JsonRpcRequest` (serde derive); if that fails, as a
`JsonRpcNotification`; if both fail, a ParseError response with sentinel
id 0 is emitted.  Requests are dispatched by `handle_request` to the
`initialize` and `ping` handlers or to an InvalidRequest error; a
notification produces no output.

The embedding models:
  * JSON values (`Json`), with numbers split into integer-valued and
    non-integer (float) literals, mirroring serde_json's `Number`;
  * serde-derive deserialization of the four wire structs, including
    "unknown fields are ignored", "duplicate known field is an error",
    "`Option` fields default to `none` when absent and accept `null`",
    and the untagged `JsonRpcId` (bare u64 number or bare string);
  * the per-line processing of `main`'s loop body (`processLine`),
    returning `some response` when one line is written to stdout and
    `none` when nothing is emitted;
  * serde serialization of responses back to JSON trees
    (`serializeResponse`), with struct fields in declaration order and
    `None` options rendered as JSON `null`.

Character-level JSON text parsing is not modelled: an input line is either
`InputLine.malformed` (text that is not a single valid JSON value, which
serde_json rejects for every target type) or `InputLine.json v`.
-/

/-- A JSON number, as serde_json classifies it: an integer literal
(`PosInt`/`NegInt`, here one `Int`) or a floating-point literal.  A `u64`
deserializes only from a non-negative integer literal below `2 ^ 64`;
the float payload is irrelevant to every property proved here. -/
inductive JsonNum where
  | int : Int → JsonNum
  | float : JsonNum

/-- A JSON value tree, the embedding of `serde_json::Value`.  Objects are
ordered association lists; duplicate keys can occur in parsed input text
and are handled by the deserializers. -/
inductive Json where
  | null : Json
  | bool : Bool → Json
  | num : JsonNum → Json
  | str : String → Json
  | arr : List Json → Json
  | obj : List (String × Json) → Json

/-- `JsonRpcId`: a JSON-RPC id, either a `u64` number or a string
(`#[serde(untagged)]` in the source). -/
inductive JsonRpcId where
  | Number : Nat → JsonRpcId
  | String : String → JsonRpcId
deriving DecidableEq

/-- `JsonRpcRequest`: id, jsonrpc, method, optional params. -/
structure JsonRpcRequest where
  id : JsonRpcId
  jsonrpc : String
  method : String
  params : Option Json

/-- `JsonRpcNotification`: like a request but without the id field. -/
structure JsonRpcNotification where
  jsonrpc : String
  method : String
  params : Option Json

/-- `JsonRpcError`: code, message, optional data. -/
structure JsonRpcError where
  code : Int
  message : String
  data : Option Json

/-- `JsonRpcResponseSuccess`: id, jsonrpc, optional result. -/
structure JsonRpcResponseSuccess where
  id : JsonRpcId
  jsonrpc : String
  result : Option Json

/-- `JsonRpcResponseError`: id, jsonrpc, optional error object. -/
structure JsonRpcResponseError where
  id : JsonRpcId
  jsonrpc : String
  error : Option JsonRpcError

/-- The two response shapes the server can send (the source writes each
through the `JsonRpcResponse` trait's `to_json`). -/
inductive Response where
  | success : JsonRpcResponseSuccess → Response
  | error : JsonRpcResponseError → Response

def ERROR_CODE_PARSE_ERROR : Int := -32700
def ERROR_CODE_INVALID_REQUEST : Int := -32600
def ERROR_CODE_METHOD_NOT_FOUND : Int := -32601
def ERROR_CODE_INVALID_PARAMS : Int := -32602
def ERROR_CODE_INTERNAL_ERROR : Int := -32603

/-- All values bound to a given key in a JSON object, in order.  serde's
derived deserializer errors when a known field occurs more than once and
ignores unknown fields entirely. -/
def fieldOcc (name : String) : List (String × Json) → List Json
  | [] => []
  | (k, v) :: rest =>
    if k = name then v :: fieldOcc name rest else fieldOcc name rest

/-- serde derive: a required field must occur exactly once (absence is
"missing field", a second occurrence is "duplicate field"). -/
def expectOne : List Json → Option Json
  | [v] => some v
  | _ => none

/-- Deserializing the untagged `JsonRpcId`: a `u64` accepts exactly the
non-negative integer literals below `2 ^ 64`; a string accepts any JSON
string; everything else fails. -/
def parseIdJson : Json → Option JsonRpcId
  | .num (.int n) => if 0 ≤ n ∧ n < 2 ^ 64 then some (.Number n.toNat) else none
  | .str s => some (.String s)
  | _ => none

/-- Deserializing a `String` field: only a JSON string succeeds. -/
def parseStringJson : Json → Option String
  | .str s => some s
  | _ => none

/-- Deserializing an `Option<Value>` field from its occurrences: absent
and `null` both give `none`; any other single value gives `some`;
a duplicate occurrence is a "duplicate field" error. -/
def parseParams : List Json → Option (Option Json)
  | [] => some none
  | [Json.null] => some none
  | [v] => some (some v)
  | _ => none

/-- serde-derive deserialization of `JsonRpcRequest` from an object's
fields: `id`, `jsonrpc`, `method` required, `params` optional, unknown
fields ignored. -/
def parseReqFields (fields : List (String × Json)) : Option JsonRpcRequest :=
  match expectOne (fieldOcc "id" fields) with
  | none => none
  | some idv =>
    match parseIdJson idv with
    | none => none
    | some i =>
      match expectOne (fieldOcc "jsonrpc" fields) with
      | none => none
      | some jv =>
        match parseStringJson jv with
        | none => none
        | some jr =>
          match expectOne (fieldOcc "method" fields) with
          | none => none
          | some mv =>
            match parseStringJson mv with
            | none => none
            | some m =>
              match parseParams (fieldOcc "params" fields) with
              | none => none
              | some p => some { id := i, jsonrpc := jr, method := m, params := p }

/-- serde-derive deserialization of `JsonRpcNotification`: `jsonrpc` and
`method` required, `params` optional, every other field — including a
present `id` of any shape — ignored. -/
def parseNotifFields (fields : List (String × Json)) : Option JsonRpcNotification :=
  match expectOne (fieldOcc "jsonrpc" fields) with
  | none => none
  | some jv =>
    match parseStringJson jv with
    | none => none
    | some jr =>
      match expectOne (fieldOcc "method" fields) with
      | none => none
      | some mv =>
        match parseStringJson mv with
        | none => none
        | some m =>
          match parseParams (fieldOcc "params" fields) with
          | none => none
          | some p => some { jsonrpc := jr, method := m, params := p }

/-- A struct deserializes only from a JSON object. -/
def parseReq : Json → Option JsonRpcRequest
  | .obj fields => parseReqFields fields
  | _ => none

def parseNotif : Json → Option JsonRpcNotification
  | .obj fields => parseNotifFields fields
  | _ => none

/-- One line of input as the core sees it: either text that is not a
single valid JSON value (serde_json's `from_str` fails on it for every
target type) or a parsed JSON value. -/
inductive InputLine where
  | malformed : String → InputLine
  | json : Json → InputLine

/-- `serde_json::from_str::<JsonRpcRequest>` on one line. -/
def parseRequestLine : InputLine → Option JsonRpcRequest
  | .malformed _ => none
  | .json j => parseReq j

/-- `serde_json::from_str::<JsonRpcNotification>` on one line. -/
def parseNotificationLine : InputLine → Option JsonRpcNotification
  | .malformed _ => none
  | .json j => parseNotif j

/-- serde_json `Value` index lookup `v[name]` (missing key or non-object
gives `Null`). -/
def getIndex (j : Json) (name : String) : Json :=
  match j with
  | .obj fields =>
    match fieldOcc name fields with
    | v :: _ => v
    | [] => .null
  | _ => .null

/-- Sorted-map insertion on an object's fields: serde_json's default
`Map<String, Value>` is a BTreeMap, so `result[k] = v` keeps keys in
ascending order and replaces an existing binding. -/
def setField : List (String × Json) → String → Json → List (String × Json)
  | [], k, v => [(k, v)]
  | (k1, v1) :: rest, k, v =>
    match compare k k1 with
    | .lt => (k, v) :: (k1, v1) :: rest
    | .eq => (k, v) :: rest
    | .gt => (k1, v1) :: setField rest k v

/-- `Value` index assignment `j[k] = v`: inserts into an object,
auto-vivifies `Null` into an object (serde_json's `IndexMut`); the
panicking non-object case is unreachable in the source and left as the
identity here. -/
def setObjField (j : Json) (k : String) (v : Json) : Json :=
  match j with
  | .obj fields => .obj (setField fields k v)
  | .null => .obj [(k, v)]
  | _ => j

/-- The result object built by the `initialize` handler, mirroring the
source's sequence of index assignments on a fresh `Value::Object`
(`result["protocolVersion"] = ...` through
`result["serverInfo"]["version"] = ...`). -/
def initializeResult : Json :=
  let r0 := Json.obj []
  let r1 := setObjField r0 "protocolVersion" (.str "2024-11-05")
  let r2 := setObjField r1 "capabilities" (.obj [])
  let r3 := setObjField r2 "serverInfo" (.obj [])
  let r4 := setObjField r3 "serverInfo"
    (setObjField (getIndex r3 "serverInfo") "name" (.str "MCP Rust test server"))
  let r5 := setObjField r4 "serverInfo"
    (setObjField (getIndex r4 "serverInfo") "version" (.str "0.1.0"))
  r5

/-- `handle_request`: dispatch on the method name; `initialize` and
`ping` answer with a success response, anything else with an
InvalidRequest error naming the method.  Every branch sends exactly one
response carrying a clone of the request's id. -/
def handle_request (request : JsonRpcRequest) : Response :=
  if request.method = "initialize" then
    .success { id := request.id, jsonrpc := "2.0", result := some initializeResult }
  else if request.method = "ping" then
    .success { id := request.id, jsonrpc := "2.0", result := some (.obj []) }
  else
    .error { id := request.id, jsonrpc := "2.0",
             error := some { code := ERROR_CODE_INVALID_REQUEST,
                             message := "Invalid request: \x27" ++ request.method ++ "\x27",
                             data := none } }

/-- `handle_notification`: only logs (for `notifications/initialized` or
an unknown method); it never writes to stdout, hence no response. -/
def handle_notification (_notification : JsonRpcNotification) : Option Response :=
  none

/-- The body of `main`'s per-line loop: try Request, then Notification,
else emit the ParseError response with sentinel id `Number 0`.  The
returned `some r` means exactly the serialization of `r` is written as
one line to stdout; `none` means nothing is written for this line. -/
def processLine (line : InputLine) : Option Response :=
  match parseRequestLine line with
  | some req => some (handle_request req)
  | none =>
    match parseNotificationLine line with
    | some notif => handle_notification notif
    | none =>
      some (.error { id := .Number 0, jsonrpc := "2.0",
                     error := some { code := ERROR_CODE_PARSE_ERROR,
                                     message := "Parse error", data := none } })

/-- The id field of either response shape. -/
def responseId : Response → JsonRpcId
  | .success s => s.id
  | .error e => e.id

/-- serde serialization of the untagged id: a bare JSON number or a bare
JSON string, no type tag. -/
def serializeId : JsonRpcId → Json
  | .Number n => .num (.int n)
  | .String s => .str s

/-- serde serialization of an `Option` field's value: `None` renders as
JSON `null`. -/
def serializeOptValue : Option Json → Json
  | none => .null
  | some v => v

/-- serde serialization of `JsonRpcError`, fields in declaration order. -/
def serializeError (e : JsonRpcError) : Json :=
  .obj [("code", .num (.int e.code)),
        ("message", .str e.message),
        ("data", serializeOptValue e.data)]

/-- `to_json` of either response struct: fields in declaration order; a
success response has no `error` member at all and an error response no
`result` member. -/
def serializeResponse : Response → Json
  | .success s =>
      .obj [("id", serializeId s.id),
            ("jsonrpc", .str s.jsonrpc),
            ("result", serializeOptValue s.result)]
  | .error e =>
      .obj [("id", serializeId e.id),
            ("jsonrpc", .str e.jsonrpc),
            ("error", match e.error with
                      | none => .null
                      | some err => serializeError err)]

/-- Whether a serialized JSON object carries a member with this key. -/
def hasMemberJ (j : Json) (name : String) : Bool :=
  match j with
  | .obj fields => !(fieldOcc name fields).isEmpty
  | _ => false

/-- Whether a response's body field is populated: `result` for a success
response, `error` for an error response. -/
def responseBodyPopulated : Response → Prop
  | .success s => s.result.isSome = true
  | .error e => e.error.isSome = true

/-! Concrete input lines used to instantiate the universally quantified
theorems below. -/

def reqLine42 : InputLine :=
  .json (.obj [("jsonrpc", .str "2.0"), ("id", .num (.int 42)), ("method", .str "ping")])

def req42 : JsonRpcRequest :=
  { id := .Number 42, jsonrpc := "2.0", method := "ping", params := none }

def notifLineEx : InputLine :=
  .json (.obj [("jsonrpc", .str "2.0"), ("method", .str "notifications/initialized")])

def initLineX : InputLine :=
  .json (.obj [("id", .num (.int 1)), ("jsonrpc", .str "2.0"), ("method", .str "initialize"),
               ("params", .obj [("protocolVersion", .str "X")])])

def idNullFields : List (String × Json) :=
  [("jsonrpc", .str "2.0"), ("method", .str "foo"), ("id", Json.null)]

def idNullLine : InputLine := .json (.obj idNullFields)

def badVersionLine : InputLine :=
  .json (.obj [("jsonrpc", .str "1.0"), ("id", .num (.int 1)), ("method", .str "ping")])

def fooLine : InputLine :=
  .json (.obj [("id", .str "a"), ("jsonrpc", .str "2.0"), ("method", .str "foo")])

def pingParamsLine : InputLine :=
  .json (.obj [("id", .num (.int 5)), ("jsonrpc", .str "2.0"), ("method", .str "ping"),
               ("params", .arr [.num (.int 1)])])

def abcLine : InputLine :=
  .json (.obj [("id", .str "abc"), ("jsonrpc", .str "2.0"), ("method", .str "ping")])

def reqAbc : JsonRpcRequest :=
  { id := .String "abc", jsonrpc := "2.0", method := "ping", params := none }

def respAbc : Response :=
  .success { id := .String "abc", jsonrpc := "2.0", result := some (.obj []) }

/-! Helper lemmas shared by the claim theorems. -/

theorem handle_request_responseId (req : JsonRpcRequest) :
    responseId (handle_request req) = req.id := by
  unfold handle_request
  split_ifs <;> rfl

theorem expectOne_single (v : Json) : expectOne [v] = some v := rfl

theorem serializeResponse_id (r : Response) :
    getIndex (serializeResponse r) "id" = serializeId (responseId r) := by
  cases r <;> rfl

theorem parseReq_of_notif (fields : List (String × Json)) (idv : Json) (i : JsonRpcId)
    (n : JsonRpcNotification)
    (hid : fieldOcc "id" fields = [idv]) (hi : parseIdJson idv = some i)
    (hn : parseNotifFields fields = some n) :
    parseReqFields fields =
      some { id := i, jsonrpc := n.jsonrpc, method := n.method, params := n.params } := by
  unfold parseNotifFields at hn
  split at hn
  · exact Option.noConfusion hn
  · rename_i jv hjv
    split at hn
    · exact Option.noConfusion hn
    · rename_i jr hjr
      split at hn
      · exact Option.noConfusion hn
      · rename_i mv hmv
        split at hn
        · exact Option.noConfusion hn
        · rename_i m hm
          split at hn
          · exact Option.noConfusion hn
          · rename_i p hp
            injection hn with hn2
            subst hn2
            simp only [parseReqFields, hid, expectOne_single, hi, hjv, hjr, hmv, hm, hp]

theorem parseNotifFields_build (fields : List (String × Json)) (jv mv : Json)
    (jr m : String) (p : Option Json)
    (hjv : fieldOcc "jsonrpc" fields = [jv]) (hjr : parseStringJson jv = some jr)
    (hmv : fieldOcc "method" fields = [mv]) (hm : parseStringJson mv = some m)
    (hp : parseParams (fieldOcc "params" fields) = some p) :
    parseNotifFields fields = some { jsonrpc := jr, method := m, params := p } := by
  simp only [parseNotifFields, hjv, expectOne_single, hjr, hmv, hm, hp]

theorem parseReqFields_none_of_badId (fields : List (String × Json)) (idv : Json)
    (hid : fieldOcc "id" fields = [idv]) (hbad : parseIdJson idv = none) :
    parseReqFields fields = none := by
  simp only [parseReqFields, hid, expectOne_single, hbad]

/-- Claim C1: for every input line, if it is classified as a Request then
exactly one response line is emitted (the single `some` of `processLine`,
which `send_response` writes as one line) and its id equals the request's
id; if it is classified as a Notification, no output line is emitted.
`processLine`'s `Option Response` codomain is the emission of `main`'s
loop body, so at most one response can ever be produced per line. -/
theorem claim_C1_one_reply_per_request (line : InputLine) :
    (∀ req, parseRequestLine line = some req →
      (processLine line).map responseId = some req.id) ∧
    (parseRequestLine line = none → parseNotificationLine line ≠ none →
      processLine line = none) := by
  constructor
  · intro req h
    simp [processLine, h, handle_request_responseId]
  · intro h1 h2
    unfold processLine
    rw [h1]
    cases hn : parseNotificationLine line with
    | none => exact absurd hn h2
    | some n => rfl

theorem claim_C1_witness :
    (processLine reqLine42).map responseId = some (JsonRpcId.Number 42) ∧
    processLine notifLineEx = none :=
  ⟨(claim_C1_one_reply_per_request reqLine42).1 req42 rfl,
   (claim_C1_one_reply_per_request notifLineEx).2 rfl
     (by
       intro h
       rw [show parseNotificationLine notifLineEx =
         some { jsonrpc := "2.0", method := "notifications/initialized", params := none }
         from rfl] at h
       exact Option.noConfusion h)⟩

/-- Claim C2, refuted as stated: the request to `initialize` carries
`params.protocolVersion == "X"`, yet the success response's
`result.protocolVersion` is the fixed string "2024-11-05", not "X" —
the handler never reads `params`. -/
theorem claim_C2_counterexample :
    parseRequestLine initLineX =
      some { id := .Number 1, jsonrpc := "2.0", method := "initialize",
             params := some (.obj [("protocolVersion", .str "X")]) } ∧
    processLine initLineX =
      some (.success { id := .Number 1, jsonrpc := "2.0", result := some initializeResult }) ∧
    getIndex initializeResult "protocolVersion" = .str "2024-11-05" ∧
    Json.str "2024-11-05" ≠ Json.str "X" :=
  ⟨rfl, rfl, rfl, fun h => absurd (Json.str.inj h) (by decide)⟩

/-- Claim C2 as amended: for every well-formed Request to `initialize`,
whatever its `params` (present, absent, or carrying any
`protocolVersion`), the handler succeeds — it never fails or panics —
and the success response's `result.protocolVersion` is always the fixed
default "2024-11-05"; the incoming `protocolVersion` is not echoed. -/
theorem claim_C2_amended_fixed_version (req : JsonRpcRequest) (h : req.method = "initialize") :
    handle_request req =
      .success { id := req.id, jsonrpc := "2.0", result := some initializeResult } ∧
    getIndex initializeResult "protocolVersion" = .str "2024-11-05" := by
  refine ⟨?_, rfl⟩
  unfold handle_request
  rw [if_pos h]

theorem claim_C2_witness :
    handle_request { id := .Number 7, jsonrpc := "2.0", method := "initialize", params := none } =
      .success { id := .Number 7, jsonrpc := "2.0", result := some initializeResult } ∧
    getIndex initializeResult "protocolVersion" = .str "2024-11-05" :=
  claim_C2_amended_fixed_version
    { id := .Number 7, jsonrpc := "2.0", method := "initialize", params := none } rfl

/-- Claim C3, refuted as stated: this input line contains an `id` member
(value `null`), yet it is dispatched as a Notification (request parsing
fails on the id, notification parsing ignores the unknown-typed `id`
field) and produces no output — so absence of `id` is not the sole
discriminator. -/
theorem claim_C3_counterexample :
    fieldOcc "id" idNullFields = [Json.null] ∧
    parseRequestLine idNullLine = none ∧
    parseNotificationLine idNullLine =
      some { jsonrpc := "2.0", method := "foo", params := none } ∧
    processLine idNullLine = none :=
  ⟨rfl, rfl, rfl, rfl⟩

/-- Claim C3 as amended: a line whose JSON object carries exactly one
`id` member whose value deserializes as a JSON-RPC id (u64 or string) is
never dispatched as a Notification — if it fails to parse as a Request,
notification parsing fails too.  Only an `id` member of some other JSON
shape can be ignored and leave the line to the notification path. -/
theorem claim_C3_amended_valid_id_never_notification (fields : List (String × Json))
    (idv : Json) (i : JsonRpcId)
    (hid : fieldOcc "id" fields = [idv]) (hi : parseIdJson idv = some i)
    (hr : parseReq (.obj fields) = none) :
    parseNotif (.obj fields) = none := by
  cases hn : parseNotif (.obj fields) with
  | none => rfl
  | some n =>
    exfalso
    have hs : parseNotifFields fields = some n := hn
    have hq := parseReq_of_notif fields idv i n hid hi hs
    have hr2 : parseReqFields fields = none := hr
    rw [hq] at hr2
    exact Option.noConfusion hr2

theorem claim_C3_witness : parseNotif (.obj [("id", .str "abc")]) = none :=
  claim_C3_amended_valid_id_never_notification
    [("id", .str "abc")] (.str "abc") (.String "abc") rfl rfl rfl

/-- Claim C4, the divergence evaluated: a valid JSON line whose `jsonrpc`
field is "1.0" (not "2.0") is nevertheless accepted as a well-formed
Request and answered by the `ping` handler — the derived deserializer
only requires `jsonrpc` to be a string and never compares it with "2.0",
although the struct's own documentation says it must be "2.0". -/
theorem claim_C4_version_not_validated :
    parseRequestLine badVersionLine =
      some { id := .Number 1, jsonrpc := "1.0", method := "ping", params := none } ∧
    processLine badVersionLine =
      some (.success { id := .Number 1, jsonrpc := "2.0", result := some (.obj []) }) ∧
    ("1.0" : String) ≠ "2.0" :=
  ⟨rfl, rfl, by decide⟩

/-- Claim C5: for every well-formed Request whose method is neither
"initialize" nor "ping", the emitted response is an error response with
the original id, code `ERROR_CODE_INVALID_REQUEST` = -32600, and a
message naming the unknown method; no handler branch runs. -/
theorem claim_C5_unknown_method_invalid_request (line : InputLine) (req : JsonRpcRequest)
    (hp : parseRequestLine line = some req)
    (h1 : req.method ≠ "initialize") (h2 : req.method ≠ "ping") :
    processLine line =
      some (.error { id := req.id, jsonrpc := "2.0",
                     error := some { code := ERROR_CODE_INVALID_REQUEST,
                                     message := "Invalid request: \x27" ++ req.method ++ "\x27",
                                     data := none } }) ∧
    ERROR_CODE_INVALID_REQUEST = -32600 := by
  refine ⟨?_, rfl⟩
  unfold processLine
  rw [hp]
  show some (handle_request req) = _
  unfold handle_request
  rw [if_neg h1, if_neg h2]

theorem claim_C5_witness :
    processLine fooLine =
      some (.error { id := .String "a", jsonrpc := "2.0",
                     error := some { code := ERROR_CODE_INVALID_REQUEST,
                                     message := "Invalid request: \x27foo\x27",
                                     data := none } }) ∧
    ERROR_CODE_INVALID_REQUEST = -32600 :=
  claim_C5_unknown_method_invalid_request fooLine
    { id := .String "a", jsonrpc := "2.0", method := "foo", params := none }
    rfl (by decide) (by decide)

/-- Claim C6: for every well-formed Request to "ping", whatever `params`
holds (it is unconstrained here), the emitted response is a success
response whose result is the empty JSON object and whose id is the
request's. -/
theorem claim_C6_ping_empty_result (line : InputLine) (req : JsonRpcRequest)
    (hp : parseRequestLine line = some req) (h : req.method = "ping") :
    processLine line =
      some (.success { id := req.id, jsonrpc := "2.0", result := some (.obj []) }) := by
  unfold processLine
  rw [hp]
  show some (handle_request req) = _
  unfold handle_request
  rw [h, if_neg (by decide : ¬("ping" : String) = "initialize"), if_pos rfl]

theorem claim_C6_witness :
    processLine pingParamsLine =
      some (.success { id := .Number 5, jsonrpc := "2.0", result := some (.obj []) }) :=
  claim_C6_ping_empty_result pingParamsLine
    { id := .Number 5, jsonrpc := "2.0", method := "ping", params := some (.arr [.num (.int 1)]) }
    rfl rfl

/-- Claim C7: for every input line that parses neither as a Request nor
as a Notification, exactly one error response is emitted, with
`ERROR_CODE_PARSE_ERROR` = -32700 and the sentinel id `Number 0`. -/
theorem claim_C7_parse_error_sentinel (line : InputLine)
    (h1 : parseRequestLine line = none) (h2 : parseNotificationLine line = none) :
    processLine line =
      some (.error { id := .Number 0, jsonrpc := "2.0",
                     error := some { code := ERROR_CODE_PARSE_ERROR,
                                     message := "Parse error", data := none } }) ∧
    ERROR_CODE_PARSE_ERROR = -32700 := by
  refine ⟨?_, rfl⟩
  unfold processLine
  rw [h1, h2]

theorem claim_C7_witness :
    processLine (.malformed "not json") =
      some (.error { id := .Number 0, jsonrpc := "2.0",
                     error := some { code := ERROR_CODE_PARSE_ERROR,
                                     message := "Parse error", data := none } }) ∧
    ERROR_CODE_PARSE_ERROR = -32700 :=
  claim_C7_parse_error_sentinel (.malformed "not json") rfl rfl

/-- Claim C8: every response to a Request carries the identical id value
(same variant and payload), and the serialized response's `id` member is
`serializeId` of that id — by definition a bare JSON number for a numeric
id and a bare JSON string for a string id, with no type tag. -/
theorem claim_C8_id_fidelity (line : InputLine) (req : JsonRpcRequest) (r : Response)
    (hp : parseRequestLine line = some req) (hr : processLine line = some r) :
    responseId r = req.id ∧
    getIndex (serializeResponse r) "id" = serializeId req.id := by
  have hre : r = handle_request req := by
    unfold processLine at hr
    rw [hp] at hr
    exact (Option.some.inj hr).symm
  subst hre
  refine ⟨handle_request_responseId req, ?_⟩
  rw [serializeResponse_id, handle_request_responseId]

theorem claim_C8_witness :
    responseId respAbc = reqAbc.id ∧
    getIndex (serializeResponse respAbc) "id" = serializeId reqAbc.id :=
  claim_C8_id_fidelity abcLine reqAbc respAbc rfl rfl

/-- Claim C9: every response the system emits has its body field
populated (`result` is `some` on a success response, `error` is `some`
on an error response), and its serialized object carries exactly one of
the members "result" and "error" — never both, never neither. -/
theorem claim_C9_exactly_one_body (line : InputLine) (r : Response)
    (h : processLine line = some r) :
    responseBodyPopulated r ∧
    hasMemberJ (serializeResponse r) "result" ≠ hasMemberJ (serializeResponse r) "error" := by
  unfold processLine at h
  cases hreq : parseRequestLine line with
  | some req =>
    rw [hreq] at h
    have hre : r = handle_request req := (Option.some.inj h).symm
    subst hre
    unfold handle_request
    split_ifs <;> exact ⟨rfl, fun hc => Bool.noConfusion hc⟩
  | none =>
    rw [hreq] at h
    cases hn : parseNotificationLine line with
    | some n =>
      rw [hn] at h
      exact Option.noConfusion h
    | none =>
      rw [hn] at h
      have hre : r = _ := (Option.some.inj h).symm
      subst hre
      exact ⟨rfl, fun hc => Bool.noConfusion hc⟩

theorem claim_C9_witness :
    responseBodyPopulated respAbc ∧
    hasMemberJ (serializeResponse respAbc) "result" ≠ hasMemberJ (serializeResponse respAbc) "error" :=
  claim_C9_exactly_one_body abcLine respAbc rfl

/-- Claim C10: a JSON-object line with valid (single, string-typed)
`jsonrpc` and `method` fields and well-formed optional `params`, whose
`id` member is present exactly once but does not deserialize as a u64 or
a string (for example `null`, a negative or fractional number, or a
boolean), fails request parsing, is accepted as a Notification (the
unknown-typed `id` is ignored), and produces no output line. -/
theorem claim_C10_invalid_id_becomes_notification (fields : List (String × Json))
    (idv jv mv : Json) (jr m : String) (p : Option Json)
    (hid : fieldOcc "id" fields = [idv]) (hbad : parseIdJson idv = none)
    (hjv : fieldOcc "jsonrpc" fields = [jv]) (hjr : parseStringJson jv = some jr)
    (hmv : fieldOcc "method" fields = [mv]) (hm : parseStringJson mv = some m)
    (hp : parseParams (fieldOcc "params" fields) = some p) :
    processLine (.json (.obj fields)) = none := by
  have hreq : parseRequestLine (.json (.obj fields)) = none :=
    parseReqFields_none_of_badId fields idv hid hbad
  have hnot : parseNotificationLine (.json (.obj fields)) =
      some { jsonrpc := jr, method := m, params := p } :=
    parseNotifFields_build fields jv mv jr m p hjv hjr hmv hm hp
  unfold processLine
  rw [hreq, hnot]
  rfl

theorem claim_C10_witness : processLine idNullLine = none :=
  claim_C10_invalid_id_becomes_notification idNullFields Json.null (.str "2.0") (.str "foo")
    "2.0" "foo" none rfl rfl rfl rfl rfl rfl rfl
